import Mathlib

/-
Verification of the obsidian-runny URI-building core: the null-filtering
parameter containers (obsidian_runny/containers.py and
obsidian_runny/mappings/param_dict.py) and the URI formatting functions
(obsidian_runny/uri_handling.py), shallowly embedded as executable Lean
definitions over an ordered association-list model of Python dicts.
-/

set_option autoImplicit false

namespace ObsidianRunny

/-- Python values that flow through the parameter containers and the URI
formatter: None, strings, booleans and integers. -/
inductive Value where
  | none : Value
  | str : String → Value
  | bool : Bool → Value
  | int : Int → Value
deriving DecidableEq, Repr

/-- Python equality between values. Booleans compare equal to the
integers 1 and 0 (True == 1, False == 0), which matters for dict
membership tests such as the one in format_param_pair. -/
def pyEq (a b : Value) : Bool :=
  match a, b with
  | .none, .none => true
  | .str s, .str t => s == t
  | .bool x, .bool y => x == y
  | .bool x, .int n => (if x then (1 : Int) else 0) == n
  | .int n, .bool x => n == (if x then (1 : Int) else 0)
  | .int m, .int n => m == n
  | _, _ => false

/-- Whether a value is the None singleton (Python `is None`). -/
def Value.isNone : Value → Bool
  | .none => true
  | _ => false

/-- Whether a value is a Python str (`isinstance(v, str)`). -/
def Value.isStr : Value → Bool
  | .str _ => true
  | _ => false

/-- Python str() of a value, as used by format_param_pair for
non-boolean-designated keys. -/
def Value.pyStr : Value → String
  | .none => "None"
  | .str s => s
  | .bool true => "True"
  | .bool false => "False"
  | .int n => toString n

/-- The only exception the modelled code raises is TypeError. -/
inductive PyError where
  | typeError : String → PyError
deriving DecidableEq, Repr

/-- A Python dict in insertion order: the ordered entry list of
(key, value) pairs. Both ParamDict classes subclass dict, so this is
the state of a ParamDict as well. -/
abbrev ParamDict := List (Value × Value)

/-- Dict lookup: the value stored under the first key comparing
Python-equal to k. -/
def listLookup : ParamDict → Value → Option Value
  | [], _ => none
  | (k', v') :: rest, k => if pyEq k k' then some v' else listLookup rest k

/-- Dict membership (`k in d`). -/
def listContains (l : ParamDict) (k : Value) : Bool :=
  (listLookup l k).isSome

/-- Plain dict.__setitem__: overwrite in place when a Python-equal key is
already present (keeping the original key object and its position),
otherwise append at the end. -/
def listSet : ParamDict → Value → Value → ParamDict
  | [], k, v => [(k, v)]
  | (k', v') :: rest, k, v =>
    if pyEq k k' then (k', v) :: rest else (k', v') :: listSet rest k v

/-- dict.__delitem__: remove the entry whose key is Python-equal to k. -/
def listDel : ParamDict → Value → ParamDict
  | [], _ => []
  | (k', v') :: rest, k =>
    if pyEq k k' then rest else (k', v') :: listDel rest k

/-- mappings/param_dict.py ParamDict.__setitem__: a non-None value is
stored through dict.__setitem__; None deletes the key when present and
otherwise does nothing. -/
def setItem (p : ParamDict) (k v : Value) : ParamDict :=
  if v.isNone = false then listSet p k v
  else if listContains p k then listDel p k
  else p

/-- containers.py ParamDict.__setitem__: the key is deleted only when the
value is None AND the key is already present; in every other case,
including None assigned to an absent key, dict.__setitem__ runs. -/
def containersSetItem (p : ParamDict) (k v : Value) : ParamDict :=
  if v.isNone && listContains p k then listDel p k
  else listSet p k v

/-- A positional construction argument as the code distinguishes them:
a Mapping (iterated via .items()), a non-Mapping iterable of pairs, or
an object that is not iterable at all. -/
inductive DictArgsLike where
  | mapping : List (Value × Value) → DictArgsLike
  | pairs : List (Value × Value) → DictArgsLike
  | notIterable : Value → DictArgsLike
deriving DecidableEq, Repr

/-- mappings/iteration/iter_as_pairs: Mapping yields .items(); any other
iterable is unpacked pairwise; a non-iterable raises TypeError when the
generator is consumed. -/
def iter_as_pairs : DictArgsLike → Except PyError (List (Value × Value))
  | .mapping items => .ok items
  | .pairs items => .ok items
  | .notIterable _ => .error (.typeError "object is not iterable")

/-- mappings/param_dict.py _as_dict_args: positional and keyword sources
together raise TypeError; keyword values alone are the source; one
positional argument alone goes through iter_as_pairs; neither yields
nothing. Keyword keys are strings by Python syntax. -/
def as_dict_args (args : List DictArgsLike) (kwargs : List (String × Value)) :
    Except PyError (List (Value × Value)) :=
  match args, kwargs with
  | _ :: _, _ :: _ => .error (.typeError "Expects only 1 arg or kwarg values")
  | [], _ :: _ => .ok (kwargs.map fun kv => (Value.str kv.1, kv.2))
  | a :: _, [] => iter_as_pairs a
  | [], [] => .ok []

/-- mappings/param_dict.py ParamDict._update_core body: each pair with a
None value is skipped, every other pair goes through __setitem__. -/
def updateCore (p : ParamDict) (items : List (Value × Value)) : ParamDict :=
  items.foldl (fun acc kv => if kv.2.isNone then acc else setItem acc kv.1 kv.2) p

/-- mappings/param_dict.py ParamDict.__init__: start empty and run
_update_core over _as_dict_args(args, kwargs). -/
def pdInit (args : List DictArgsLike) (kwargs : List (String × Value)) :
    Except PyError ParamDict :=
  (as_dict_args args kwargs).map (updateCore [])

/-- mappings/param_dict.py ParamDict.update: _update_core on an existing
instance. -/
def pdUpdate (p : ParamDict) (args : List DictArgsLike)
    (kwargs : List (String × Value)) : Except PyError ParamDict :=
  (as_dict_args args kwargs).map (updateCore p)

/-- containers.py construction loop: pairs with None values are skipped,
the rest go through containers.py __setitem__. -/
def containersUpdateFrom (p : ParamDict) (items : List (Value × Value)) : ParamDict :=
  items.foldl
    (fun acc kv => if kv.2.isNone then acc else containersSetItem acc kv.1 kv.2) p

/-- containers.py ParamDict.__init__: match on (len(args), bool(kwargs));
zero positional arguments copy from kwargs; one positional argument plus
kwargs raises; one positional argument alone must be iterable (Mapping
via .items(), else the iterable itself); more raise. -/
def containersInit (args : List DictArgsLike) (kwargs : List (String × Value)) :
    Except PyError ParamDict :=
  match args, kwargs with
  | [], _ =>
      .ok (containersUpdateFrom [] (kwargs.map fun kv => (Value.str kv.1, kv.2)))
  | [_], _ :: _ => .error (.typeError "Cannot set from args and kwargs")
  | [a], [] =>
      match a with
      | .notIterable _ =>
          .error (.typeError "Positional argument must be mapping or iterable of pairs")
      | .mapping items => .ok (containersUpdateFrom [] items)
      | .pairs items => .ok (containersUpdateFrom [] items)
  | _, _ => .error (.typeError "Expects only 1 arg or kwarg values")

/-- The possible arguments to ParamDict.as_instance: an existing
ParamDict instance, some other Mapping, a plain iterable of pairs, or a
non-iterable object. -/
inductive PyObj where
  | paramDict : ParamDict → PyObj
  | mapping : List (Value × Value) → PyObj
  | pairList : List (Value × Value) → PyObj
  | nonIterable : Value → PyObj
deriving DecidableEq, Repr

/-- mappings/param_dict.py ParamDict.as_instance: an instance is returned
itself; a non-iterable raises TypeError; anything else is passed to the
constructor as the single positional argument. -/
def as_instance : PyObj → Except PyError ParamDict
  | .paramDict p => .ok p
  | .mapping items => pdInit [.mapping items] []
  | .pairList items => pdInit [.pairs items] []
  | .nonIterable _ =>
      .error (.typeError "Cannot convert non-iterable to type ParamDict")

/-- Uppercase hexadecimal digit for percent-encoding. -/
def hexDigitUpper (n : Nat) : Char :=
  if n < 10 then Char.ofNat (48 + n) else Char.ofNat (55 + n)

/-- One percent-encoded byte, e.g. 32 becomes "%20". -/
def percentByte (b : Nat) : String :=
  String.mk ['%', hexDigitUpper (b / 16), hexDigitUpper (b % 16)]

/-- UTF-8 bytes of a character, for percent-encoding non-safe characters. -/
def charUtf8 (c : Char) : List Nat :=
  let n := c.toNat
  if n < 128 then [n]
  else if n < 2048 then [192 + n / 64, 128 + n % 64]
  else if n < 65536 then [224 + n / 4096, 128 + n / 64 % 64, 128 + n % 64]
  else [240 + n / 262144, 128 + n / 4096 % 64, 128 + n / 64 % 64, 128 + n % 64]

/-- Characters urllib.parse.quote leaves unencoded with the default
safe characters: ASCII letters and digits, the always-safe marks
underscore, dot, hyphen and tilde, and the default safe slash. -/
def quoteSafe (c : Char) : Bool :=
  c.isAlpha || c.isDigit || c == '_' || c == '.' || c == '-' || c == '~' || c == '/'

/-- urllib.parse.quote with default arguments, as imported under the name
urlquote: safe characters pass through, everything else is
percent-encoded byte by byte in UTF-8 with uppercase hex. -/
def urlquote (s : String) : String :=
  String.join (s.toList.map fun c =>
    if quoteSafe c then String.singleton c
    else String.join ((charUtf8 c).map percentByte))

/-- uri_handling.py _keys_are_bool: the fixed set of boolean-designated
parameter keys. -/
def keys_are_bool : List String := ["clipboard", "silent", "overwrite"]

/-- The lookup `v in _bool2str` / `_bool2str[v]` against the dict
mapping True to "true" and False to "false". Dict membership uses Python
equality, so the integers 1 and 0 also hit the True and False entries. -/
def bool2str (v : Value) : Option String :=
  if pyEq v (.bool true) then some "true"
  else if pyEq v (.bool false) then some "false"
  else none

/-- uri_handling.py format_param_pair: quoted key, then "=", then either
the _bool2str rendering (TypeError when the value is not in _bool2str)
for boolean-designated keys, or the quoted str() of the value. -/
def format_param_pair (k : String) (v : Value) : Except PyError String :=
  if keys_are_bool.contains k then
    match bool2str v with
    | some s => .ok (urlquote k ++ "=" ++ s)
    | none => .error (.typeError ("Expected bool value for " ++ k))
  else .ok (urlquote k ++ "=" ++ urlquote v.pyStr)

/-- The loop of uri_handling.py format_parameters: each key must be a
str or TypeError is raised at that entry; string keys are formatted with
format_param_pair in iteration order. -/
def format_param_list : List (Value × Value) → Except PyError (List String)
  | [] => .ok []
  | (k, v) :: rest =>
    match k with
    | .str s =>
      match format_param_pair s v with
      | .ok e => (format_param_list rest).map (fun es => e :: es)
      | .error err => .error err
    | _ => .error (.typeError "key is not a str")

/-- uri_handling.py format_parameters: the formatted pairs joined
with "&". -/
def format_parameters (params : List (Value × Value)) : Except PyError String :=
  (format_param_list params).map (String.intercalate "&")

/-- uri_handling.py format_uri: protocol and resource must be str; the
result is protocol ++ "://" ++ urlquote(resource), and when the
parameter mapping is non-empty (Python truthiness of a dict), "?" and
the formatted parameter block follow. -/
def format_uri (protocol resource : Value) (parameters : List (Value × Value)) :
    Except PyError String :=
  match protocol, resource with
  | .str p, .str r =>
    if parameters.isEmpty then .ok (p ++ "://" ++ urlquote r)
    else (format_parameters parameters).map
      (fun q => p ++ "://" ++ urlquote r ++ "?" ++ q)
  | .str _, _ => .error (.typeError "expected string for resource")
  | _, _ => .error (.typeError "expected string for protocol")

/-- The states a mappings/param_dict.py ParamDict can reach: any
successful construction, followed by any sequence of item assignments
and successful update calls. -/
inductive Reaches : ParamDict → Prop where
  | init : ∀ args kwargs p, pdInit args kwargs = .ok p → Reaches p
  | assign : ∀ p k v, Reaches p → Reaches (setItem p k v)
  | upd : ∀ p args kwargs q, Reaches p → pdUpdate p args kwargs = .ok q → Reaches q

/-- The container invariant: no entry carries the value None. -/
def NoNoneValues (p : ParamDict) : Prop :=
  ∀ kv ∈ p, kv.2 ≠ Value.none

end ObsidianRunny

deriving instance DecidableEq for Except

namespace ObsidianRunny

theorem isNone_false_iff (v : Value) : v.isNone = false ↔ v ≠ Value.none := by
  cases v <;> simp [Value.isNone]

theorem mem_listDel (p : ParamDict) (k : Value) (kv : Value × Value)
    (h : kv ∈ listDel p k) : kv ∈ p := by
  induction p with
  | nil => simp [listDel] at h
  | cons hd tl ih =>
    obtain ⟨k', v'⟩ := hd
    by_cases hk : pyEq k k' = true
    · simp only [listDel, if_pos hk] at h
      exact List.mem_cons_of_mem _ h
    · simp only [listDel, if_neg hk] at h
      rcases List.mem_cons.mp h with heq | h2
      · exact heq ▸ List.mem_cons_self _ _
      · exact List.mem_cons_of_mem _ (ih h2)

theorem noNone_listSet (p : ParamDict) (k v : Value) (hp : NoNoneValues p)
    (hv : v ≠ Value.none) : NoNoneValues (listSet p k v) := by
  induction p with
  | nil =>
    intro kv hkv
    simp only [listSet, List.mem_singleton] at hkv
    rw [hkv]
    exact hv
  | cons hd tl ih =>
    obtain ⟨k', v'⟩ := hd
    intro kv hkv
    by_cases hk : pyEq k k' = true
    · simp only [listSet, if_pos hk] at hkv
      rcases List.mem_cons.mp hkv with heq | hmem
      · rw [heq]; exact hv
      · exact hp kv (List.mem_cons_of_mem _ hmem)
    · simp only [listSet, if_neg hk] at hkv
      rcases List.mem_cons.mp hkv with heq | hmem
      · rw [heq]; exact hp (k', v') (List.mem_cons_self _ _)
      · exact ih (fun kv2 h2 => hp kv2 (List.mem_cons_of_mem _ h2)) kv hmem

theorem noNone_listDel (p : ParamDict) (k : Value) (hp : NoNoneValues p) :
    NoNoneValues (listDel p k) :=
  fun kv hkv => hp kv (mem_listDel p k kv hkv)

theorem noNone_setItem (p : ParamDict) (k v : Value) (hp : NoNoneValues p) :
    NoNoneValues (setItem p k v) := by
  by_cases hv : v.isNone = false
  · simp only [setItem, if_pos hv]
    exact noNone_listSet p k v hp ((isNone_false_iff v).mp hv)
  · simp only [setItem, if_neg hv]
    by_cases hc : listContains p k = true
    · simp only [if_pos hc]
      exact noNone_listDel p k hp
    · simp only [if_neg hc]
      exact hp

theorem noNone_updateCore (items : List (Value × Value)) (p : ParamDict)
    (hp : NoNoneValues p) : NoNoneValues (updateCore p items) := by
  induction items generalizing p with
  | nil => simpa [updateCore] using hp
  | cons hd tl ih =>
    by_cases hn : hd.2.isNone = true
    · have step : updateCore p (hd :: tl) = updateCore p tl := by
        simp [updateCore, List.foldl_cons, hn]
      rw [step]
      exact ih p hp
    · have step : updateCore p (hd :: tl) = updateCore (setItem p hd.1 hd.2) tl := by
        simp [updateCore, List.foldl_cons, hn]
      rw [step]
      exact ih _ (noNone_setItem p hd.1 hd.2 hp)

theorem noNone_nil : NoNoneValues [] :=
  fun _ hkv => absurd hkv (List.not_mem_nil _)

theorem noNone_pdInit (args : List DictArgsLike) (kwargs : List (String × Value))
    (p : ParamDict) (h : pdInit args kwargs = .ok p) : NoNoneValues p := by
  simp only [pdInit] at h
  cases hd : as_dict_args args kwargs with
  | ok items =>
    rw [hd] at h
    simp only [Except.map, Except.ok.injEq] at h
    rw [← h]
    exact noNone_updateCore items [] noNone_nil
  | error e =>
    rw [hd] at h
    simp [Except.map] at h

/-- Every ParamDict (mappings/param_dict.py) state reached by construction,
item assignment and update satisfies the no-None invariant. -/
theorem paramdict_reaches_no_none (p : ParamDict) (h : Reaches p) : NoNoneValues p := by
  induction h with
  | init args kwargs q hq => exact noNone_pdInit args kwargs q hq
  | assign q k v _ ih => exact noNone_setItem q k v ih
  | upd q args kwargs r _ hr ih =>
    simp only [pdUpdate] at hr
    cases hd : as_dict_args args kwargs with
    | ok items =>
      rw [hd] at hr
      simp only [Except.map, Except.ok.injEq] at hr
      rw [← hr]
      exact noNone_updateCore items q ih
    | error e =>
      rw [hd] at hr
      simp [Except.map] at hr

theorem listSet_map_fst (p : ParamDict) (k v : Value) (h : listContains p k = true) :
    (listSet p k v).map Prod.fst = p.map Prod.fst := by
  induction p with
  | nil => simp [listContains, listLookup] at h
  | cons hd tl ih =>
    obtain ⟨k', v'⟩ := hd
    by_cases hk : pyEq k k' = true
    · simp [listSet, hk]
    · simp only [listSet, if_neg hk, List.map_cons]
      rw [ih (by simpa [listContains, listLookup, hk] using h)]

theorem listLookup_listSet (p : ParamDict) (k v : Value) (h : listContains p k = true) :
    listLookup (listSet p k v) k = some v := by
  induction p with
  | nil => simp [listContains, listLookup] at h
  | cons hd tl ih =>
    obtain ⟨k', v'⟩ := hd
    by_cases hk : pyEq k k' = true
    · simp [listSet, if_pos hk, listLookup, hk]
    · simp only [listSet, if_neg hk, listLookup]
      exact ih (by simpa [listContains, listLookup, hk] using h)

/-- Claim C1: the claim states that no ParamDict key is ever mapped to None.
The containers.py ParamDict violates this: starting from an empty instance,
assigning None to the absent key "a" stores the entry ("a", None) instead of
doing nothing, so the resulting state maps "a" to None. -/
theorem C1_containers_stores_none :
    containersInit ([] : List DictArgsLike) [] = .ok []
    ∧ containersSetItem [] (Value.str "a") Value.none = [(Value.str "a", Value.none)]
    ∧ listLookup (containersSetItem [] (Value.str "a") Value.none) (Value.str "a")
        = some Value.none :=
  ⟨rfl, rfl, rfl⟩

/-- Claim C2: format_uri produces protocol ++ "://" ++ urlquote(resource),
followed by "?" and the formatted parameter block exactly when the parameter
mapping is non-empty, with the two concrete examples from the spec. -/
theorem C2_format_uri_shape (p r : String) (m : List (Value × Value)) (hm : m ≠ []) :
    format_uri (.str p) (.str r) [] = .ok (p ++ "://" ++ urlquote r)
    ∧ format_uri (.str p) (.str r) m =
        (format_parameters m).map (fun q => p ++ "://" ++ urlquote r ++ "?" ++ q)
    ∧ format_uri (.str "obsidian") (.str "new") [] = .ok "obsidian://new"
    ∧ format_uri (.str "obsidian") (.str "new") [(.str "vault", .str "My Vault")]
        = .ok "obsidian://new?vault=My%20Vault" := by
  refine ⟨rfl, ?_, rfl, by decide⟩
  cases m with
  | nil => exact absurd rfl hm
  | cons hd tl => rfl

/-- Witness for C2 at protocol "obsidian", resource "new" and the non-empty
mapping with the single entry vault = My Vault. -/
theorem C2_format_uri_shape_witness :
    format_uri (.str "obsidian") (.str "new") [(.str "vault", .str "My Vault")] =
      (format_parameters [(.str "vault", .str "My Vault")]).map
        (fun q => "obsidian" ++ "://" ++ urlquote "new" ++ "?" ++ q) :=
  (C2_format_uri_shape "obsidian" "new" [(.str "vault", .str "My Vault")]
    (by decide)).2.1

/-- Claim C3: the claim states that assigning None to an absent key is a
no-op. The containers.py ParamDict.__setitem__ instead stores the entry:
on the dict holding only ("b", 1), assigning None to the absent key "a"
appends ("a", None), changing the dict. -/
theorem C3_containers_none_absent_not_noop :
    containersInit [DictArgsLike.mapping [(Value.str "b", Value.int 1)]] []
      = .ok [(Value.str "b", Value.int 1)]
    ∧ containersSetItem [(Value.str "b", Value.int 1)] (Value.str "a") Value.none
        = [(Value.str "b", Value.int 1), (Value.str "a", Value.none)]
    ∧ containersSetItem [(Value.str "b", Value.int 1)] (Value.str "a") Value.none
        ≠ [(Value.str "b", Value.int 1)] :=
  ⟨rfl, rfl, by decide⟩

/-- The mappings/param_dict.py ParamDict.__setitem__ does satisfy the spec:
None on an absent key is a no-op, None on a present key deletes it, and a
non-None value is stored through dict.__setitem__. -/
theorem setItem_spec (p : ParamDict) (k : Value) :
    (listContains p k = false → setItem p k Value.none = p)
    ∧ (listContains p k = true → setItem p k Value.none = listDel p k)
    ∧ (∀ v, v.isNone = false → setItem p k v = listSet p k v) := by
  refine ⟨?_, ?_, ?_⟩
  · intro hc
    simp [setItem, Value.isNone, hc]
  · intro hc
    simp [setItem, Value.isNone, hc]
  · intro v hv
    simp [setItem, hv]

/-- Claim C4: for each key in the fixed boolean-designated set, the
formatter renders True as the literal "true" and False as the literal
"false". -/
theorem C4_bool_keys_render :
    format_param_pair "clipboard" (.bool true) = .ok "clipboard=true"
    ∧ format_param_pair "clipboard" (.bool false) = .ok "clipboard=false"
    ∧ format_param_pair "silent" (.bool true) = .ok "silent=true"
    ∧ format_param_pair "silent" (.bool false) = .ok "silent=false"
    ∧ format_param_pair "overwrite" (.bool true) = .ok "overwrite=true"
    ∧ format_param_pair "overwrite" (.bool false) = .ok "overwrite=false" := by
  decide

/-- Counterexample to claim C5: the claim states that a boolean-designated
key with a non-boolean value always raises TypeError, but the membership
test against the dict keyed by True and False uses Python equality, under
which the integer 1 equals True: format_param_pair("clipboard", 1) returns
"clipboard=true" instead of raising. -/
theorem C5_counterexample :
    Value.int 1 ≠ Value.bool true
    ∧ Value.int 1 ≠ Value.bool false
    ∧ format_param_pair "clipboard" (Value.int 1) = .ok "clipboard=true" := by
  decide

/-- Claim C5 as amended: format_uri raises TypeError for a non-string
protocol, and for a non-string resource when the protocol is a string; a
boolean-designated key raises TypeError exactly when its value does not
compare Python-equal to True or False, and renders booleans as
true/false. -/
theorem C5_amended (pv rv : Value) (k : String) (v : Value)
    (hp : pv.isStr = false) (hr : rv.isStr = false)
    (hk : keys_are_bool.contains k = true) (hv : bool2str v = none) :
    (∀ res params, format_uri pv res params =
        .error (.typeError "expected string for protocol"))
    ∧ (∀ s params, format_uri (.str s) rv params =
        .error (.typeError "expected string for resource"))
    ∧ format_param_pair k v = .error (.typeError ("Expected bool value for " ++ k))
    ∧ (∀ b, format_param_pair k (.bool b) =
        .ok (urlquote k ++ "=" ++ (if b then "true" else "false")))
    ∧ format_param_pair k (.int 1) = .ok (urlquote k ++ "=" ++ "true")
    ∧ format_param_pair k (.int 0) = .ok (urlquote k ++ "=" ++ "false") := by
  refine ⟨?_, ?_, ?_, ?_, ?_, ?_⟩
  · intro res params
    cases pv <;> first
      | (cases res <;> rfl)
      | simp [Value.isStr] at hp
  · intro s params
    cases rv <;> first
      | rfl
      | simp [Value.isStr] at hr
  · have hmem : k ∈ keys_are_bool := by simpa using hk
    simp [format_param_pair, hk, hv, hmem]
  · intro b
    have hmem : k ∈ keys_are_bool := by simpa using hk
    cases b <;> simp [format_param_pair, hk, hmem, bool2str, pyEq]
  · have hmem : k ∈ keys_are_bool := by simpa using hk
    have h1 : bool2str (Value.int 1) = some "true" := rfl
    simp [format_param_pair, hmem, h1]
  · have hmem : k ∈ keys_are_bool := by simpa using hk
    have h0 : bool2str (Value.int 0) = some "false" := rfl
    simp [format_param_pair, hmem, h0]

/-- Witness for C5 as amended, exercising the protocol type error with the
non-string protocol 2 while the resource "new" IS a string. -/
theorem C5_amended_witness :
    (Value.int 2).isStr = false
    ∧ format_uri (Value.int 2) (Value.str "new") [] =
        .error (.typeError "expected string for protocol") :=
  ⟨by decide,
    (C5_amended (Value.int 2) Value.none "clipboard" (Value.str "x")
      (by decide) (by decide) (by decide) (by decide)).1 (Value.str "new") []⟩

/-- Claim C6: construction with both a positional source and keyword values
raises TypeError in both ParamDict classes, and so does construction from a
non-iterable positional argument; the error is produced by the constructor
call itself. -/
theorem C6_malformed_construction_errors (a : DictArgsLike)
    (args : List DictArgsLike) (kw : List (String × Value)) (obj : Value)
    (ha : args ≠ []) (hk : kw ≠ []) :
    pdInit args kw = .error (.typeError "Expects only 1 arg or kwarg values")
    ∧ pdInit [DictArgsLike.notIterable obj] [] =
        .error (.typeError "object is not iterable")
    ∧ containersInit [a] kw = .error (.typeError "Cannot set from args and kwargs")
    ∧ containersInit [DictArgsLike.notIterable obj] [] =
        .error (.typeError "Positional argument must be mapping or iterable of pairs") := by
  refine ⟨?_, rfl, ?_, rfl⟩
  · cases args with
    | nil => exact absurd rfl ha
    | cons a0 as =>
      cases kw with
      | nil => exact absurd rfl hk
      | cons k0 ks => rfl
  · cases kw with
    | nil => exact absurd rfl hk
    | cons k0 ks => rfl

/-- Witness for C6 with one positional pair source and one keyword value. -/
theorem C6_malformed_construction_errors_witness :
    [DictArgsLike.pairs []] ≠ ([] : List DictArgsLike)
    ∧ [("key", Value.int 1)] ≠ ([] : List (String × Value))
    ∧ pdInit [DictArgsLike.pairs []] [("key", Value.int 1)] =
        .error (.typeError "Expects only 1 arg or kwarg values") :=
  ⟨by decide, by decide,
    (C6_malformed_construction_errors (DictArgsLike.pairs [])
      [DictArgsLike.pairs []] [("key", Value.int 1)] Value.none
      (by decide) (by decide)).1⟩

/-- Counterexample to claim C7: the claim states that supplying a non-string
key makes construction fail, but neither ParamDict class checks key types:
constructing from the single pair (1, "x") succeeds in both and stores the
integer key. -/
theorem C7_counterexample :
    (Value.int 1).isStr = false
    ∧ pdInit [DictArgsLike.pairs [(Value.int 1, Value.str "x")]] []
        = .ok [(Value.int 1, Value.str "x")]
    ∧ containersInit [DictArgsLike.pairs [(Value.int 1, Value.str "x")]] []
        = .ok [(Value.int 1, Value.str "x")] := by
  decide

/-- Claim C7 as amended: ParamDict construction stores a non-string key with
a non-None value without raising, in both classes; a non-string key is
rejected with TypeError only later, by format_parameters at URI-formatting
time. -/
theorem C7_amended (k v : Value) (hks : k.isStr = false) (hv : v.isNone = false) :
    pdInit [DictArgsLike.pairs [(k, v)]] [] = .ok [(k, v)]
    ∧ containersInit [DictArgsLike.pairs [(k, v)]] [] = .ok [(k, v)]
    ∧ format_parameters [(k, v)] = .error (.typeError "key is not a str") := by
  refine ⟨?_, ?_, ?_⟩
  · simp [pdInit, as_dict_args, iter_as_pairs, Except.map, updateCore,
      List.foldl_cons, hv, setItem, listSet]
  · simp [containersInit, containersUpdateFrom, List.foldl_cons, hv,
      containersSetItem, listSet, Bool.false_and]
  · cases k with
    | str s => simp [Value.isStr] at hks
    | none => rfl
    | bool b => rfl
    | int n => rfl

/-- Witness for C7 as amended at the non-string key True with value "y". -/
theorem C7_amended_witness :
    (Value.bool true).isStr = false
    ∧ (Value.str "y").isNone = false
    ∧ pdInit [DictArgsLike.pairs [(Value.bool true, Value.str "y")]] []
        = .ok [(Value.bool true, Value.str "y")] :=
  ⟨by decide, by decide,
    (C7_amended (Value.bool true) (Value.str "y") (by decide) (by decide)).1⟩

/-- Claim C8: storing a non-None value under a key that is already present
keeps the key sequence, and hence the key's insertion position, unchanged,
while the stored value is the new one. -/
theorem C8_overwrite_preserves_position (p : ParamDict) (k v : Value)
    (hv : v.isNone = false) (hk : listContains p k = true) :
    (setItem p k v).map Prod.fst = p.map Prod.fst
    ∧ listLookup (setItem p k v) k = some v := by
  have hs : setItem p k v = listSet p k v := by simp [setItem, hv]
  rw [hs]
  exact ⟨listSet_map_fst p k v hk, listLookup_listSet p k v hk⟩

/-- Witness for C8: overwriting the first of two keys keeps the key order. -/
theorem C8_overwrite_preserves_position_witness :
    (setItem [(Value.str "a", Value.int 1), (Value.str "b", Value.int 2)]
        (Value.str "a") (Value.str "z")).map Prod.fst =
      [(Value.str "a", Value.int 1), (Value.str "b", Value.int 2)].map Prod.fst
    ∧ listLookup
        (setItem [(Value.str "a", Value.int 1), (Value.str "b", Value.int 2)]
          (Value.str "a") (Value.str "z")) (Value.str "a") = some (Value.str "z") :=
  C8_overwrite_preserves_position
    [(Value.str "a", Value.int 1), (Value.str "b", Value.int 2)]
    (Value.str "a") (Value.str "z") (by decide) (by decide)

/-- Claim C9: as_instance returns a ParamDict argument itself, builds a new
ParamDict from a Mapping or an iterable of pairs, raises TypeError on a
non-iterable, and is idempotent: feeding a successful result back in
returns it unchanged. -/
theorem C9_as_instance (x : PyObj) (p q : ParamDict) (items : List (Value × Value))
    (obj : Value) (_h : as_instance x = .ok q) :
    as_instance (.paramDict p) = .ok p
    ∧ as_instance (.mapping items) = .ok (updateCore [] items)
    ∧ as_instance (.pairList items) = .ok (updateCore [] items)
    ∧ as_instance (.nonIterable obj) =
        .error (.typeError "Cannot convert non-iterable to type ParamDict")
    ∧ as_instance (.paramDict q) = .ok q := by
  exact ⟨rfl, rfl, rfl, rfl, rfl⟩

/-- Witness for C9 with a concrete instance and a successful conversion of
the empty pair list. -/
theorem C9_as_instance_witness :
    as_instance (PyObj.paramDict [(Value.str "a", Value.int 3)]) =
      .ok [(Value.str "a", Value.int 3)] :=
  (C9_as_instance (PyObj.pairList []) [(Value.str "a", Value.int 3)] []
    [] Value.none rfl).1

theorem format_param_list_nonstr (params : List (Value × Value))
    (h : ∃ kv ∈ params, kv.1.isStr = false) :
    ∃ msg, format_param_list params = .error (.typeError msg) := by
  induction params with
  | nil => simp at h
  | cons hd tl ih =>
    obtain ⟨k, v⟩ := hd
    obtain ⟨kv, hmem, hkv⟩ := h
    cases k with
    | str s =>
      have htl : kv ∈ tl := by
        rcases List.mem_cons.mp hmem with heq | htl
        · exfalso
          rw [heq] at hkv
          simp [Value.isStr] at hkv
        · exact htl
      obtain ⟨msg, hmsg⟩ := ih ⟨kv, htl, hkv⟩
      cases hp : format_param_pair s v with
      | ok e => exact ⟨msg, by simp [format_param_list, hp, hmsg, Except.map]⟩
      | error err =>
        cases err with
        | typeError m => exact ⟨m, by simp [format_param_list, hp]⟩
    | none => exact ⟨"key is not a str", by simp [format_param_list]⟩
    | bool b => exact ⟨"key is not a str", by simp [format_param_list]⟩
    | int n => exact ⟨"key is not a str", by simp [format_param_list]⟩

/-- Claim C10: a mapping whose iteration yields at least one non-string key
makes format_parameters raise TypeError; the per-key check happens at
formatting time. -/
theorem C10_nonstring_key_rejected (params : List (Value × Value))
    (h : ∃ kv ∈ params, kv.1.isStr = false) :
    ∃ msg, format_parameters params = .error (.typeError msg) := by
  obtain ⟨msg, hm⟩ := format_param_list_nonstr params h
  exact ⟨msg, by simp [format_parameters, hm, Except.map]⟩

/-- Witness for C10: a mapping with a string key followed by the integer
key 7 is rejected by format_parameters. -/
theorem C10_nonstring_key_rejected_witness :
    ∃ msg, format_parameters [(Value.str "a", Value.int 1), (Value.int 7, Value.str "x")]
      = .error (.typeError msg) :=
  C10_nonstring_key_rejected
    [(Value.str "a", Value.int 1), (Value.int 7, Value.str "x")]
    ⟨(Value.int 7, Value.str "x"), by decide, by decide⟩

end ObsidianRunny
